import Mathlib

/-!
Verification development for the gift-card checkout study instrument
(single source file app.js). The JavaScript code is shallowly embedded:

* the answer store (a plain JS object mapping step ids to string values)
  becomes a function from String to Option String, where none models an
  absent key (undefined);
* JS numbers appearing in this code are decimal values, modelled as Rat;
  NaN is modelled by Option.none. The Number string-to-number conversion
  is modelled for decimal literals with optional sign, fraction and
  surrounding whitespace, which covers every string this program builds
  or compares (hex, exponent and Infinity forms are outside the model);
* DOM rendering, event wiring and the Firestore call are external
  collaborators and are not part of the embedded state; the pure state
  updates the handlers perform are embedded as explicit state-passing
  functions.
-/

namespace CheckoutStudy

attribute [local semireducible] Rat.add Rat.mul Rat.sub Rat.inv

/-! ### JS value helpers -/

/-- ASCII whitespace, the subset of the JS whitespace class this model
covers. -/
def isSpaceChar (c : Char) : Bool := c = ' ' || c = '\t' || c = '\n' || c = '\r'

/-- Removes leading and trailing whitespace, modelling JS `s.trim()`. -/
def trimChars (cs : List Char) : List Char :=
  ((cs.dropWhile isSpaceChar).reverse.dropWhile isSpaceChar).reverse

/-- Models JS `s.toLowerCase()` on ASCII text. -/
def strToLower (s : String) : String := (s.toList.map Char.toLower).asString

/-- Models JS `s.startsWith(p)`. -/
def strStarts (s p : String) : Bool := p.toList.isPrefixOf s.toList

/-- Truthiness of a possibly-absent JS string value: undefined and the
empty string are falsy, every other string is truthy. -/
def truthy : Option String → Bool
  | none => false
  | some s => s ≠ ""

/-- Models a JS expression of the form `x || d` on string values: the
default is used when `x` is undefined or the empty string. -/
def jsOrStr (o : Option String) (d : String) : String :=
  match o with
  | none => d
  | some s => if s = "" then d else s

/-- Numeric value of a list of decimal digit characters. -/
def digitsVal (cs : List Char) : ℕ :=
  cs.foldl (fun a c => a * 10 + (c.toNat - 48)) 0

/-- Parses an unsigned decimal literal (digits, optional point, optional
fraction digits; at least one digit overall). The value of the literal
`I.F` is the rational with numerator the digits of `I` followed by `F`
and denominator ten to the length of `F`. Returns none otherwise. -/
def parseUnsigned (cs : List Char) : Option ℚ :=
  let intDigits := cs.takeWhile Char.isDigit
  let rest := cs.drop intDigits.length
  match rest with
  | [] => if intDigits.isEmpty then none else some (digitsVal intDigits : ℚ)
  | '.' :: frac =>
      if frac.all Char.isDigit ∧ (intDigits ≠ [] ∨ frac ≠ []) then
        some (mkRat (digitsVal (intDigits ++ frac) : ℤ) (10 ^ frac.length))
      else none
  | _ => none

/-- Models the JS `Number(s)` conversion on a string, for the decimal
subset described in the file comment. none models NaN. The empty or
all-whitespace string converts to 0, as in JS. -/
def jsNum (s : String) : Option ℚ :=
  match trimChars s.toList with
  | [] => some 0
  | '-' :: rest => (parseUnsigned rest).map Neg.neg
  | '+' :: rest => parseUnsigned rest
  | cs => parseUnsigned cs

/-- Models `Number(x)` where `x` is a possibly-absent string answer:
`Number(undefined)` is NaN. -/
def jsNumOfVal : Option String → Option ℚ
  | none => none
  | some s => jsNum s

/-- Models `Number(x ?? d)` where `d` is a numeric literal default. -/
def numOr (o : Option String) (d : ℚ) : Option ℚ :=
  match o with
  | none => some d
  | some s => jsNum s

/-- Models `Math.round` on a (finite) JS number: round half toward
positive infinity. -/
def jsRound (q : ℚ) : ℤ := ⌊q + 1 / 2⌋

/-- Embeds `clampInt(n, lo, hi)` from app.js: `Math.round` the number,
return `lo` when it is not finite (modelled by none), otherwise
`Math.min(hi, Math.max(lo, x))`. -/
def clampInt (o : Option ℚ) (lo hi : ℤ) : ℤ :=
  match o with
  | none => lo
  | some q => min hi (max lo (jsRound q))

/-- Substring test on character lists, modelling JS `hay.includes(needle)`
(the empty needle is contained in every string). -/
def containsSub : List Char → List Char → Bool
  | hay, needle =>
    if needle.isPrefixOf hay then true
    else
      match hay with
      | [] => false
      | _ :: t => containsSub t needle

/-- Models JS `s.includes(sub)`. -/
def strIncludes (s sub : String) : Bool := containsSub s.toList sub.toList

/-! ### Answer store -/

/-- The answer store: the module-level `answers` object, a flat mapping
from step identifier to string value. (`session.answers` is mutated in
lockstep with `answers` by `setAnswer`, so a single mapping models both.) -/
def Store : Type := String → Option String

/-- A store with no keys set. -/
def emptyStore : Store := fun _ => none

/-- Embeds `setAnswer(key, value)` from app.js: writes the key, and when
the key is `card_type` purges the answers exclusive to the other branch
(Digital purges the physical steps, Physical purges the digital steps). -/
def setAnswer (a : Store) (key value : String) : Store :=
  fun q =>
    if q = key then some value
    else if key = "card_type" ∧ value = "Digital" ∧
        (q = "packaging" ∨ q = "shipping_method" ∨ q = "shipping_address") then none
    else if key = "card_type" ∧ value = "Physical" ∧
        (q = "digital_delivery" ∨ q = "digital_identifier") then none
    else a q

/-- Embeds `ensureRecipient1Defaults()`: fills falsy `r1_qty` with "1",
falsy `r1_amt` with "50", and an undefined `r1_msg` with "". -/
def ensureRecipient1Defaults (a : Store) : Store :=
  let a1 := if truthy (a "r1_qty") then a else setAnswer a "r1_qty" "1"
  let a2 := if truthy (a1 "r1_amt") then a1 else setAnswer a1 "r1_amt" "50"
  if (a2 "r1_msg").isSome then a2 else setAnswer a2 "r1_msg" ""

/-- Embeds `ensureDesignDefaults()`: fills falsy `design_category` with
"All" and falsy `design` with "confetti". -/
def ensureDesignDefaults (a : Store) : Store :=
  let a1 := if truthy (a "design_category") then a else setAnswer a "design_category" "All"
  if truthy (a1 "design") then a1 else setAnswer a1 "design" "confetti"

/-! ### Design library and step model -/

/-- One entry of the `CARD_DESIGNS` array. -/
structure Design where
  id : String
  label : String
  style : String
  category : String
deriving DecidableEq, Repr

/-- Embeds the `CARD_DESIGNS` array. -/
def CARD_DESIGNS : List Design := [
  ⟨"balloons", "Bright Balloons", "bg-balloons", "Celebration"⟩,
  ⟨"confetti", "Confetti Pop", "bg-confetti", "Celebration"⟩,
  ⟨"birthday", "Birthday Cake", "bg-birthday", "Celebration"⟩,
  ⟨"love", "Love Notes", "bg-love", "Greetings"⟩,
  ⟨"thanks", "Thank You", "bg-thanks", "Appreciation"⟩,
  ⟨"holiday", "Holiday Cheer", "bg-holiday", "Seasonal"⟩,
  ⟨"gold", "Golden Luxe", "bg-gold", "Luxury"⟩,
  ⟨"black", "Matte Black", "bg-black", "Luxury"⟩,
  ⟨"classic", "Classic Red", "bg-classic", "Classic"⟩,
  ⟨"neon", "Neon Night", "bg-neon", "Modern"⟩,
  ⟨"pastel", "Soft Pastels", "bg-pastel", "Any Occasion"⟩,
  ⟨"minimal1", "Minimal Light", "bg-minimal-1", "Minimal"⟩,
  ⟨"minimal2", "Minimal Dark", "bg-minimal-2", "Minimal"⟩,
  ⟨"fun1", "Smile Waves", "bg-fun-1", "Fun"⟩,
  ⟨"fun2", "Fresh Mint", "bg-fun-2", "Fun"⟩,
  ⟨"nature1", "Green Calm", "bg-nature-1", "Nature"⟩,
  ⟨"nature2", "Ocean Blue", "bg-nature-2", "Nature"⟩,
  ⟨"abs1", "Abstract Flow", "bg-abs-1", "Abstract"⟩,
  ⟨"abs2", "Abstract Bold", "bg-abs-2", "Abstract"⟩,
  ⟨"skyline", "City Skyline", "bg-skyline", "Modern"⟩,
  ⟨"lavender", "Lavender Haze", "bg-lavender", "Any Occasion"⟩,
  ⟨"sand", "Sunny Sand", "bg-sand", "Seasonal"⟩,
  ⟨"mint", "Mint Glow", "bg-mint", "Modern"⟩,
  ⟨"kids", "Kids Party", "bg-kids", "Kids"⟩]

/-- The labels of the design library, in order. -/
def designLabels : List String := CARD_DESIGNS.map Design.label

/-- A step value object as built by the `step` factory in app.js. The
`render` closure is DOM-only and is omitted from the embedding; `options`
is an Option to model the JS `null` default. -/
structure Step where
  id : String
  title : String
  required : Bool
  kind : String
  options : Option (List String)
deriving DecidableEq, Repr

def cardTypeStep : Step :=
  ⟨"card_type", "Select Card Type", true, "choice", some ["Physical", "Digital"]⟩

def variantStep : Step :=
  ⟨"variant", "Card Variant", true, "choice", some ["Reloadable", "Non-reloadable"]⟩

def expiryStep : Step :=
  ⟨"expiry", "Expiry & Pricing", true, "choice",
    some ["No expiry (higher price)", "6-month expiry", "12-month expiry"]⟩

def designStep : Step :=
  ⟨"design", "Choose a Design", true, "design", some designLabels⟩

def activationStep : Step :=
  ⟨"activation", "Delivery & Activation", true, "choice",
    some ["Same activation for all cards", "Unique activation per card",
      "Bulk activation by sender", "Activation via card number"]⟩

def r1QtyStep : Step :=
  ⟨"r1_qty", "Recipient: Quantity", true, "number", none⟩

def r1AmtStep : Step :=
  ⟨"r1_amt", "Recipient: Gift amount", true, "amount", none⟩

def r1MsgStep : Step :=
  ⟨"r1_msg", "Recipient: Gift message (optional)", false, "text", none⟩

/-- Embeds the `baseSteps` array. -/
def baseSteps : List Step :=
  [cardTypeStep, variantStep, expiryStep, designStep, activationStep,
    r1QtyStep, r1AmtStep, r1MsgStep]

def digitalDeliveryStep : Step :=
  ⟨"digital_delivery", "Digital Delivery Method", true, "choice", some ["Email", "SMS"]⟩

def digitalIdentifierStep : Step :=
  ⟨"digital_identifier", "Delivery Identifier", false, "info", none⟩

def packagingStep : Step :=
  ⟨"packaging", "Packaging", true, "choice",
    some ["Greeting card", "Trifold printed paper", "Box packaging"]⟩

def shippingMethodStep : Step :=
  ⟨"shipping_method", "Shipping Method", true, "choice",
    some ["Standard shipping", "Expedited shipping"]⟩

def shippingAddressStep : Step :=
  ⟨"shipping_address", "Shipping Address", false, "info", none⟩

def paymentStep : Step :=
  ⟨"payment", "Payment Method", true, "choice",
    some ["Test Credit Card (4242)", "Test Debit Card (1111)"]⟩

/-- Embeds `getConditionalSteps()`: the digital pair exactly when the
stored `card_type` is the exact string "Digital", otherwise (including
the undecided state) the physical triple. -/
def getConditionalSteps (a : Store) : List Step :=
  if a "card_type" = some "Digital" then
    [digitalDeliveryStep, digitalIdentifierStep]
  else
    [packagingStep, shippingMethodStep, shippingAddressStep]

/-- Embeds `computeFlow()`: base steps, then the conditional segment,
then the payment step. -/
def computeFlow (a : Store) : List Step :=
  baseSteps ++ getConditionalSteps a ++ [paymentStep]

/-! ### Condition C modality tables and resolution -/

/-- Embeds the `CONDITION_C_MAP_PHYSICAL` object, looked up by step id. -/
def CONDITION_C_MAP_PHYSICAL (id : String) : Option String :=
  if id = "card_type" then some "voice"
  else if id = "variant" then some "voice"
  else if id = "expiry" then some "chat"
  else if id = "design" then some "standard"
  else if id = "activation" then some "voice"
  else if id = "packaging" then some "chat"
  else if id = "r1_qty" then some "voice"
  else if id = "r1_amt" then some "chat"
  else if id = "r1_msg" then some "chat"
  else if id = "shipping_method" then some "voice"
  else if id = "shipping_address" then some "chat"
  else if id = "payment" then some "standard"
  else none

/-- Embeds the `CONDITION_C_MAP_DIGITAL` object, looked up by step id. -/
def CONDITION_C_MAP_DIGITAL (id : String) : Option String :=
  if id = "card_type" then some "voice"
  else if id = "variant" then some "chat"
  else if id = "expiry" then some "standard"
  else if id = "design" then some "standard"
  else if id = "activation" then some "voice"
  else if id = "r1_qty" then some "chat"
  else if id = "r1_amt" then some "voice"
  else if id = "r1_msg" then some "chat"
  else if id = "digital_delivery" then some "voice"
  else if id = "digital_identifier" then some "standard"
  else if id = "payment" then some "chat"
  else none

/-- Embeds `getConditionCMap()`: the physical table when the stored
`card_type` is exactly "Physical", otherwise the digital table. -/
def getConditionCMap (a : Store) : String → Option String :=
  if a "card_type" = some "Physical" then CONDITION_C_MAP_PHYSICAL
  else CONDITION_C_MAP_DIGITAL

/-- Embeds `resolveInputMethodForStep(stepId)`. The module globals
`CONDITION` and `currentInputMethod` are passed explicitly. -/
def resolveInputMethodForStep (condition currentInputMethod : String)
    (a : Store) (stepId : String) : String :=
  if condition = "C" then jsOrStr (getConditionCMap a stepId) "standard"
  else if currentInputMethod = "" then "standard" else currentInputMethod

/-! ### Completion gate -/

/-- Boolean form of `Number(x) >= b` on a possibly-absent string: NaN
comparisons are false in JS. -/
def numGE (o : Option String) (b : ℚ) : Bool :=
  match jsNumOfVal o with
  | some q => decide (b ≤ q)
  | none => false

/-- Embeds `isStepComplete(stepObj)` from app.js. -/
def isStepComplete (a : Store) (st : Step) : Bool :=
  if !st.required then true
  else if st.kind = "design" then truthy (a "design")
  else
    let v := a st.id
    if st.kind = "choice" then truthy v
    else if st.kind = "number" then numGE (a "r1_qty") 1
    else if st.kind = "amount" then numGE (a "r1_amt") 5
    else true

/-! ### Freeform text normalisation, matching and number parsing -/

/-- JS word character class (backslash-w): ASCII alphanumeric or
underscore. -/
def isWordChar (c : Char) : Bool := c.isAlphanum || c = '_'

/-- Splits a character list at the characters satisfying `p`, dropping
empty pieces. -/
def splitDrop (p : Char → Bool) : List Char → List Char → List (List Char)
  | [], acc => if acc.isEmpty then [] else [acc.reverse]
  | c :: t, acc =>
      if p c then
        if acc.isEmpty then splitDrop p t [] else acc.reverse :: splitDrop p t []
      else splitDrop p t (c :: acc)

/-- Embeds `normalizeText(s)`: lowercase, replace every character that is
not a word character, whitespace or a dollar sign with a space, collapse
whitespace runs to single spaces, and trim. -/
def normalizeText (s : String) : String :=
  let mapped := (strToLower s).toList.map fun c =>
    if isWordChar c || isSpaceChar c || c = '$' then c else ' '
  String.intercalate " " ((splitDrop isSpaceChar mapped []).map List.asString)

/-- The tokens of an already-normalised string: split on single spaces
and drop empties, as `clean.split(" ").filter(Boolean)` does. -/
def tokensOf (s : String) : List String :=
  (splitDrop (· = ' ') s.toList []).map List.asString

/-- Embeds `bestOptionMatch(input, options)`: exact normalised match,
then substring containment either way, then a token-overlap score with
half-point bonuses for a startsWith relation in either direction,
accepted only when the best score reaches 1 (strict improvement keeps
the earliest best-scoring option). -/
def bestOptionMatch (input : String) (options : List String) : Option String :=
  if input = "" ∨ options = [] then none
  else
    let clean := normalizeText input
    match options.find? (fun o => normalizeText o == clean) with
    | some o => some o
    | none =>
      match options.find? (fun o => strIncludes (normalizeText o) clean) with
      | some o => some o
      | none =>
        match options.find? (fun o => strIncludes clean (normalizeText o)) with
        | some o => some o
        | none =>
          let inToks := tokensOf clean
          let best := options.foldl (fun acc o =>
            let ot := normalizeText o
            let oToks := tokensOf ot
            let score : ℚ := (oToks.countP (fun t => inToks.contains t) : ℚ)
              + (if strStarts ot clean then (1 / 2 : ℚ) else 0)
              + (if strStarts clean ot then (1 / 2 : ℚ) else 0)
            if acc.2 < score then (some o, score) else acc) ((none : Option String), (-1 : ℚ))
          if (1 : ℚ) ≤ best.2 then best.1 else none

/-- First match of the regex for an optional minus followed by a digit
run, scanning left to right, returned as its integer value (the
`s.match` call in `parseSpokenNumberClosest`). -/
def findSignedIntToken : List Char → Option ℤ
  | [] => none
  | c :: rest =>
      if c.isDigit then some ((digitsVal (c :: rest.takeWhile Char.isDigit) : ℤ))
      else if c = '-' then
        match rest with
        | [] => none
        | d :: _ =>
            if d.isDigit then some (-(digitsVal (rest.takeWhile Char.isDigit) : ℤ))
            else findSignedIntToken rest
      else findSignedIntToken rest

/-- The spoken-number word map, in the insertion order of the JS object
literal (Object.entries iterates string keys in that order). -/
def NUM_WORDS : List (String × ℤ) :=
  [("zero", 0), ("one", 1), ("won", 1), ("two", 2), ("to", 2), ("too", 2),
   ("three", 3), ("four", 4), ("for", 4), ("five", 5), ("six", 6),
   ("seven", 7), ("eight", 8), ("ate", 8), ("nine", 9), ("ten", 10)]

/-- First word of the map (in map order) contained in the lowercased
input, with its value. -/
def firstWordHit (s : String) : Option ℤ :=
  (NUM_WORDS.find? fun kv => strIncludes s kv.1).map Prod.snd

/-- Embeds `parseSpokenNumberClosest(raw, opts)`: a falsy raw string goes
straight to the clamped fallback; otherwise the first signed digit token
of the lowercased input is clamped, else the first map-order number word
found as a substring is clamped, else the fallback is clamped. -/
def parseSpokenNumberClosest (raw : String) (lo hi : ℤ) (fallback : Option ℚ) : ℤ :=
  if raw = "" then clampInt fallback lo hi
  else
    let s := strToLower raw
    match findSignedIntToken s.toList with
    | some n => clampInt (some (n : ℚ)) lo hi
    | none =>
        match firstWordHit s with
        | some v => clampInt (some (v : ℚ)) lo hi
        | none => clampInt fallback lo hi

/-- Models `Number(x || d)` with a numeric literal default, as in the
fallback computations of `applyFreeformToStep`. -/
def numOfOrDefault (o : Option String) (d : ℚ) : Option ℚ :=
  match o with
  | none => some d
  | some s => if s = "" then some d else jsNum s

/-- Embeds `applyFreeformToStep(stepObj, raw)` as a pure store update
(the DOM refreshes it also performs are external). Choice and design
steps record the best option match when one exists and do nothing
otherwise; number and amount steps always record the parsed-or-fallback
clamped value; text steps record the trimmed input cut to 140
characters; any other kind is a no-op. The function surfaces no error in
any case. -/
def applyFreeformToStep (st : Step) (raw : String) (a : Store) : Store :=
  let text := normalizeText raw
  if st.kind = "choice" then
    match bestOptionMatch text (st.options.getD []) with
    | some best => setAnswer a st.id best
    | none => a
  else if st.kind = "design" then
    match bestOptionMatch text designLabels with
    | some bestLabel =>
        match CARD_DESIGNS.find? (fun d => d.label == bestLabel) with
        | some d => setAnswer a "design" d.id
        | none => a
    | none => a
  else if st.kind = "number" then
    let n := parseSpokenNumberClosest raw 1 10 (numOfOrDefault (a "r1_qty") 1)
    setAnswer a "r1_qty" (toString n)
  else if st.kind = "amount" then
    let n := parseSpokenNumberClosest raw 5 2000 (numOfOrDefault (a "r1_amt") 50)
    setAnswer a "r1_amt" (toString n)
  else if st.kind = "text" then
    setAnswer a "r1_msg" ((trimChars raw.toList).take 140).asString
  else a

/-! ### Pricing engine -/

/-- The record returned by `computeTotals()`. -/
structure Totals where
  qty : ℤ
  amt : ℤ
  giftTotal : ℤ
deriving DecidableEq, Repr

/-- Embeds `computeTotals()`: ensure the recipient defaults, then clamp
quantity to the range 1 to 10 and amount to the range 5 to 2000, and
multiply. -/
def computeTotals (a : Store) : Totals :=
  let a1 := ensureRecipient1Defaults a
  let qty := clampInt (numOr (a1 "r1_qty") 1) 1 10
  let amt := clampInt (numOr (a1 "r1_amt") 50) 5 2000
  ⟨qty, amt, qty * amt⟩

/-- The expiry surcharges of `computePrice()`: 6 for a value starting
with "No expiry", 2 for one starting with "12-month", nothing otherwise
or when expiry is unset or empty. -/
def expiryAdd (expiry : Option String) : ℚ :=
  (if truthy expiry && strStarts (expiry.getD "") "No expiry" then 6 else 0)
  + (if truthy expiry && strStarts (expiry.getD "") "12-month" then 2 else 0)

/-- The physical-branch surcharges of `computePrice()`: applied only when
`card_type` is exactly "Physical"; packaging defaults to "Greeting card"
and shipping to "Standard shipping" through the JS or-default. -/
def physicalAdd (cardType packagingAns shippingAns : Option String) : ℚ :=
  if cardType = some "Physical" then
    (if strIncludes (jsOrStr packagingAns "Greeting card") "Trifold" then 5 / 2 else 0)
    + (if strIncludes (jsOrStr packagingAns "Greeting card") "Box" then 4 else 0)
    + (if strIncludes (jsOrStr shippingAns "Standard shipping") "Expedited" then 12 else 4)
  else 0

/-- Embeds `computePrice()`: the gift total plus the additive expiry and
physical surcharges, floored at 10 by `Math.max`. -/
def computePrice (a : Store) : ℚ :=
  max (((computeTotals a).giftTotal : ℚ)
    + expiryAdd (a "expiry")
    + physicalAdd (a "card_type") (a "packaging") (a "shipping_method")) 10

/-! ### Survey module -/

/-- The object built by `collectSurvey()`: six workload values (always
numbers when a slider exists, none modelling a missing or non-numeric
entry for the typeof check in `validateSurvey`) and six Likert values
(none when no radio button is checked). -/
structure SurveyAnswers where
  tlx_mental : Option ℚ
  tlx_physical : Option ℚ
  tlx_temporal : Option ℚ
  tlx_performance : Option ℚ
  tlx_effort : Option ℚ
  tlx_frustration : Option ℚ
  umux_req : Option ℤ
  umux_easy : Option ℤ
  peffort : Option ℤ
  trust : Option ℤ
  control : Option ℤ
  satisfaction : Option ℤ
deriving DecidableEq, Repr

/-- JS truthiness of a possibly-null numeric value (`!s[id]`): null and
zero are falsy. -/
def likTruthy : Option ℤ → Bool
  | none => false
  | some n => n ≠ 0

/-- Embeds `validateSurvey(s)`: every workload value must be a number and
every Likert item truthy. -/
def validateSurvey (s : SurveyAnswers) : Bool :=
  (s.tlx_mental.isSome && s.tlx_physical.isSome && s.tlx_temporal.isSome &&
    s.tlx_performance.isSome && s.tlx_effort.isSome && s.tlx_frustration.isSome)
  && (likTruthy s.umux_req && likTruthy s.umux_easy && likTruthy s.peffort &&
    likTruthy s.trust && likTruthy s.control && likTruthy s.satisfaction)

/-- The survey-relevant part of the session object. -/
structure SessionState where
  survey : Option SurveyAnswers
  surveySubmittedAt : Option ℤ
deriving DecidableEq, Repr

/-- The observable outcome of one `onSubmitSurvey()` run: the session
afterwards, whether `writeFinal` was invoked, and the final text of the
survey status element. -/
structure SubmitOutcome where
  session : SessionState
  wrotePayload : Bool
  surveyStatus : String
deriving DecidableEq, Repr

/-- Embeds `onSubmitSurvey()` on already-collected answers: a failed
validation surfaces the message and returns with no write and no session
mutation; success stamps the submission time, stores the survey and
performs the single write. -/
def onSubmitSurvey (sess : SessionState) (s : SurveyAnswers) (now : ℤ) : SubmitOutcome :=
  if validateSurvey s then
    ⟨⟨some s, some now⟩, true, "Submitted. Thank you!"⟩
  else
    ⟨sess, false, "Please answer all questions before submitting."⟩

/-! ### Transition recorder and navigation -/

/-- One entry of `session.transitions`, as built by `recordTransition`. -/
structure TransitionRec where
  action : String
  from_step_id : Option String
  from_step_index : ℕ
  to_step_id : Option String
  to_step_index : Option ℕ
  step_count : ℕ
  enteredAt : Option ℤ
  exitedAt : ℤ
  dwellMs : Option ℤ
deriving DecidableEq, Repr

/-- Embeds `recordTransition(action, fromStep, toStep, flowLength)` as
the entry it pushes; `now` is the `Date.now()` it reads and `enteredAt`
the module-level `stepEnteredAt`. The dwell is null when `stepEnteredAt`
is falsy (never recorded, or the JS edge of a zero timestamp). -/
def mkTransition (action : String) (fromId : Option String) (fromIdx : ℕ)
    (toId : Option String) (toIdx : Option ℕ) (count : ℕ)
    (enteredAt : Option ℤ) (now : ℤ) : TransitionRec :=
  ⟨action, fromId, fromIdx, toId, toIdx, count, enteredAt, now,
    match enteredAt with
    | some t => if t = 0 then none else some (now - t)
    | none => none⟩

/-- The navigation-relevant module state: the answer store, the current
step index, the entry timestamp of the shown step, and the transition
log. -/
structure NavState where
  answers : Store
  currentStep : ℕ
  stepEnteredAt : Option ℤ
  transitions : List TransitionRec

/-- Embeds the state effects of `renderStep()` at time `nowR`: when the
index is within the flow it materialises the recipient and design
defaults and stamps the step entry time; past the end it moves to the
survey screen, leaving all navigation state alone. -/
def renderStepState (st : NavState) (nowR : ℤ) : NavState :=
  let flow := computeFlow st.answers
  if st.currentStep < flow.length then
    { st with
      answers := ensureDesignDefaults (ensureRecipient1Defaults st.answers),
      stepEnteredAt := some nowR }
  else st

/-- Embeds the `nextBtn` click handler: with the current step incomplete
it only alerts (no state change, nothing recorded); otherwise it records
one forward transition and advances, and the subsequent render stamps
the new entry time `nowR`. An index past the flow end faults in JS
before anything is pushed; it is modelled as a no-op. -/
def nextEvent (st : NavState) (now nowR : ℤ) : NavState :=
  let flow := computeFlow st.answers
  match flow[st.currentStep]? with
  | none => st
  | some stepObj =>
      if isStepComplete st.answers stepObj then
        let nextIndex := st.currentStep + 1
        let toStep := flow[nextIndex]?
        let r := mkTransition "next" (some stepObj.id) st.currentStep
          (toStep.map Step.id) (toStep.map fun _ => nextIndex) flow.length
          st.stepEnteredAt now
        renderStepState
          { st with transitions := st.transitions ++ [r], currentStep := nextIndex } nowR
      else st

/-- Embeds the `backBtn` click handler: a no-op at index zero; otherwise
it records one backward transition and steps back, and the subsequent
render stamps the new entry time `nowR`. -/
def backEvent (st : NavState) (now nowR : ℤ) : NavState :=
  if st.currentStep = 0 then st
  else
    let flow := computeFlow st.answers
    let prevIndex := st.currentStep - 1
    let fromStep := flow[st.currentStep]?
    let toStep := flow[prevIndex]?
    let r := mkTransition "back" (fromStep.map Step.id) st.currentStep
      (toStep.map Step.id) (toStep.map fun _ => prevIndex) flow.length
      st.stepEnteredAt now
    renderStepState
      { st with transitions := st.transitions ++ [r], currentStep := prevIndex } nowR

/-! ### Spec-side notions, for comparing claims with the code -/

/-- Modelled from the claim wording for the completion gate: the stored
value parses to an integer greater than or equal to 1 (an integer being
a rational with denominator 1). -/
def specParsesToIntegerGE1 (o : Option String) : Prop :=
  ∃ q : ℚ, jsNumOfVal o = some q ∧ q.den = 1 ∧ 1 ≤ q

/-- Modelled from the claim wording for spoken-number capture: the value
of the first maximal digit run of the input (no sign attached). -/
def specFirstDigitRun : List Char → Option ℤ
  | [] => none
  | c :: rest =>
      if c.isDigit then some ((digitsVal (c :: rest.takeWhile Char.isDigit) : ℤ))
      else specFirstDigitRun rest

/-- Modelled from the claim wording for spoken-number capture: the value
of the number word occurring earliest in the input (map order breaking
ties at the same position). -/
def specFirstWordInInput : List Char → Option ℤ
  | [] => none
  | l@(_ :: rest) =>
      match NUM_WORDS.find? (fun kv => kv.1.toList.isPrefixOf l) with
      | some kv => some kv.2
      | none => specFirstWordInInput rest

/-! ### Concrete states used by witnesses and counterexamples -/

/-- The answer store of Example 2 in the spec. -/
def exampleStore2 : Store := fun k =>
  if k = "card_type" then some "Physical"
  else if k = "r1_qty" then some "1"
  else if k = "r1_amt" then some "50"
  else if k = "expiry" then some "No expiry (higher price)"
  else if k = "packaging" then some "Box packaging"
  else if k = "shipping_method" then some "Expedited shipping"
  else none

/-- A store holding only a Digital card type. -/
def digitalStore : Store := fun k =>
  if k = "card_type" then some "Digital" else none

/-- A store holding only a Physical card type. -/
def physicalStore : Store := fun k =>
  if k = "card_type" then some "Physical" else none

/-- A store whose quantity answer is the string "0". -/
def qtyZeroStore : Store := fun k =>
  if k = "r1_qty" then some "0" else none

/-- A store whose quantity answer is the string "1.5". -/
def qtyHalfStore : Store := fun k =>
  if k = "r1_qty" then some "1.5" else none

/-- A navigation state at the first step with nothing answered. -/
def navState0 : NavState :=
  ⟨emptyStore, 0, some 5, []⟩

/-- A survey answer record with every field unanswered. -/
def surveyAllNone : SurveyAnswers :=
  ⟨none, none, none, none, none, none, none, none, none, none, none, none⟩

/-- A fresh session with no survey stored. -/
def sessionStart : SessionState := ⟨none, none⟩

/-! ### Helper lemmas -/

theorem setAnswer_read_self (a : Store) (k v : String) : setAnswer a k v k = some v := by
  simp [setAnswer]

theorem setAnswer_read_ne (a : Store) (k v q : String) (h : q ≠ k)
    (hc : k ≠ "card_type") : setAnswer a k v q = a q := by
  simp [setAnswer, h, hc]

theorem setAnswer_read_unpurged (a : Store) (k v q : String) (h : q ≠ k)
    (hp : q ≠ "packaging") (hs : q ≠ "shipping_method") (hsa : q ≠ "shipping_address")
    (hd : q ≠ "digital_delivery") (hdi : q ≠ "digital_identifier") :
    setAnswer a k v q = a q := by
  simp [setAnswer, h, hp, hs, hsa, hd, hdi]

theorem setAnswer_msg_read_qty (a : Store) (v : String) :
    setAnswer a "r1_msg" v "r1_qty" = a "r1_qty" := rfl

theorem setAnswer_amt_read_qty (a : Store) (v : String) :
    setAnswer a "r1_amt" v "r1_qty" = a "r1_qty" := rfl

theorem setAnswer_qty_read_qty (a : Store) (v : String) :
    setAnswer a "r1_qty" v "r1_qty" = some v := rfl

theorem setAnswer_msg_read_amt (a : Store) (v : String) :
    setAnswer a "r1_msg" v "r1_amt" = a "r1_amt" := rfl

theorem setAnswer_qty_read_amt (a : Store) (v : String) :
    setAnswer a "r1_qty" v "r1_amt" = a "r1_amt" := rfl

theorem setAnswer_amt_read_amt (a : Store) (v : String) :
    setAnswer a "r1_amt" v "r1_amt" = some v := rfl

theorem ensure_read_r1_qty (a : Store) :
    ensureRecipient1Defaults a "r1_qty" =
      if truthy (a "r1_qty") then a "r1_qty" else some "1" := by
  simp only [ensureRecipient1Defaults]
  by_cases h1 : truthy (a "r1_qty") = true <;>
  by_cases h3 : truthy (a "r1_amt") = true <;>
  simp [h1, h3, setAnswer_msg_read_qty, setAnswer_amt_read_qty, setAnswer_qty_read_qty,
    setAnswer_qty_read_amt] <;>
  split <;>
  simp [setAnswer_msg_read_qty, setAnswer_amt_read_qty, setAnswer_qty_read_qty]

theorem ensure_read_r1_amt (a : Store) :
    ensureRecipient1Defaults a "r1_amt" =
      if truthy (a "r1_amt") then a "r1_amt" else some "50" := by
  simp only [ensureRecipient1Defaults]
  by_cases h1 : truthy (a "r1_qty") = true <;>
  by_cases h3 : truthy (a "r1_amt") = true <;>
  simp [h1, h3, setAnswer_msg_read_amt, setAnswer_qty_read_amt, setAnswer_amt_read_amt] <;>
  split <;>
  simp [setAnswer_msg_read_amt, setAnswer_qty_read_amt, setAnswer_amt_read_amt]

theorem clampInt_bounds (o : Option ℚ) (lo hi : ℤ) (h : lo ≤ hi) :
    lo ≤ clampInt o lo hi ∧ clampInt o lo hi ≤ hi := by
  cases o with
  | none => exact ⟨le_refl _, h⟩
  | some q => exact ⟨le_min h (le_max_left _ _), min_le_left _ _⟩

theorem expiryAdd_nonneg (e : Option String) : 0 ≤ expiryAdd e := by
  unfold expiryAdd
  split_ifs <;> norm_num

theorem expiryAdd_none : expiryAdd none = 0 := by decide

theorem physicalAdd_nonneg (c p s : Option String) : 0 ≤ physicalAdd c p s := by
  unfold physicalAdd
  split_ifs <;> norm_num

theorem physicalAdd_not_physical (c p s : Option String) (h : c ≠ some "Physical") :
    physicalAdd c p s = 0 := by
  unfold physicalAdd
  rw [if_neg h]

theorem physicalAdd_set_packaging (c s : Option String) (v : String) :
    physicalAdd c none s ≤ physicalAdd c (some v) s := by
  by_cases hc : c = some "Physical"
  · simp only [physicalAdd, if_pos hc]
    have h1 : strIncludes (jsOrStr (none : Option String) "Greeting card") "Trifold" = false := by
      decide
    have h2 : strIncludes (jsOrStr (none : Option String) "Greeting card") "Box" = false := by
      decide
    rw [h1, h2]
    have hx : (0 : ℚ) ≤
        if strIncludes (jsOrStr (some v) "Greeting card") "Trifold" = true then 5 / 2 else 0 := by
      split_ifs <;> norm_num
    have hy : (0 : ℚ) ≤
        if strIncludes (jsOrStr (some v) "Greeting card") "Box" = true then 4 else 0 := by
      split_ifs <;> norm_num
    simp only [Bool.false_eq_true, if_false]
    linarith
  · simp [physicalAdd, hc]

theorem physicalAdd_set_shipping (c p : Option String) (v : String) :
    physicalAdd c p none ≤ physicalAdd c p (some v) := by
  by_cases hc : c = some "Physical"
  · simp only [physicalAdd, if_pos hc]
    have h1 : strIncludes (jsOrStr (none : Option String) "Standard shipping") "Expedited"
        = false := by decide
    rw [h1]
    have hz : (4 : ℚ) ≤
        if strIncludes (jsOrStr (some v) "Standard shipping") "Expedited" = true then 12 else 4 := by
      split_ifs <;> norm_num
    simp only [Bool.false_eq_true, if_false]
    linarith
  · simp [physicalAdd, hc]

theorem computeTotals_qty (a : Store) :
    (computeTotals a).qty =
      clampInt (numOr (if truthy (a "r1_qty") then a "r1_qty" else some "1") 1) 1 10 := by
  simp [computeTotals, ensure_read_r1_qty]

theorem computeTotals_amt (a : Store) :
    (computeTotals a).amt =
      clampInt (numOr (if truthy (a "r1_amt") then a "r1_amt" else some "50") 50) 5 2000 := by
  simp [computeTotals, ensure_read_r1_amt]

theorem computeTotals_gift (a : Store) :
    (computeTotals a).giftTotal = (computeTotals a).qty * (computeTotals a).amt := rfl

theorem computeTotals_qty_mem (a : Store) :
    1 ≤ (computeTotals a).qty ∧ (computeTotals a).qty ≤ 10 := by
  rw [computeTotals_qty]
  exact clampInt_bounds _ _ _ (by norm_num)

theorem computeTotals_amt_mem (a : Store) :
    5 ≤ (computeTotals a).amt ∧ (computeTotals a).amt ≤ 2000 := by
  rw [computeTotals_amt]
  exact clampInt_bounds _ _ _ (by norm_num)

theorem computeTotals_qty_unset (a : Store) (h : a "r1_qty" = none) :
    (computeTotals a).qty = 1 := by
  rw [computeTotals_qty, h]
  decide

theorem computeTotals_congr (a b : Store) (hq : b "r1_qty" = a "r1_qty")
    (ha : b "r1_amt" = a "r1_amt") : computeTotals b = computeTotals a := by
  have h1 : (computeTotals b).qty = (computeTotals a).qty := by
    rw [computeTotals_qty, computeTotals_qty, hq]
  have h2 : (computeTotals b).amt = (computeTotals a).amt := by
    rw [computeTotals_amt, computeTotals_amt, ha]
  calc computeTotals b
      = ⟨(computeTotals b).qty, (computeTotals b).amt,
          (computeTotals b).qty * (computeTotals b).amt⟩ := rfl
    _ = ⟨(computeTotals a).qty, (computeTotals a).amt,
          (computeTotals a).qty * (computeTotals a).amt⟩ := by rw [h1, h2]
    _ = computeTotals a := rfl

theorem computePrice_le_of_parts (a b : Store)
    (hg : (computeTotals a).giftTotal ≤ (computeTotals b).giftTotal)
    (he : expiryAdd (a "expiry") ≤ expiryAdd (b "expiry"))
    (hp : physicalAdd (a "card_type") (a "packaging") (a "shipping_method") ≤
      physicalAdd (b "card_type") (b "packaging") (b "shipping_method")) :
    computePrice a ≤ computePrice b := by
  unfold computePrice
  refine max_le_max (add_le_add (add_le_add ?_ he) hp) (le_refl _)
  exact_mod_cast hg

/-! ### Claim theorems -/

/-- C1: for every answer store, `computeFlow` returns the fixed prefix
(card_type, variant, expiry, design, activation, r1_qty, r1_amt,
r1_msg), then the digital segment (digital_delivery, digital_identifier)
exactly when the card_type answer is the exact string "Digital" and
otherwise (including an absent card_type) the physical segment
(packaging, shipping_method, shipping_address), then the payment step;
in particular a Digital flow never contains a packaging step. -/
theorem computeFlow_branch_spec (a : Store) :
    ((computeFlow a).map Step.id =
      if a "card_type" = some "Digital" then
        ["card_type", "variant", "expiry", "design", "activation",
         "r1_qty", "r1_amt", "r1_msg", "digital_delivery", "digital_identifier", "payment"]
      else
        ["card_type", "variant", "expiry", "design", "activation",
         "r1_qty", "r1_amt", "r1_msg", "packaging", "shipping_method",
         "shipping_address", "payment"])
    ∧ (a "card_type" = some "Digital" → "packaging" ∉ (computeFlow a).map Step.id) := by
  by_cases h : a "card_type" = some "Digital"
  · refine ⟨?_, fun _ => ?_⟩
    · rw [if_pos h]
      simp only [computeFlow, getConditionalSteps, if_pos h]
      decide
    · simp only [computeFlow, getConditionalSteps, if_pos h]
      decide
  · refine ⟨?_, fun hd => absurd hd h⟩
    rw [if_neg h]
    simp only [computeFlow, getConditionalSteps, if_neg h]
    decide

/-- Witness for C1 at a concrete Digital store: its flow has no
packaging step. -/
theorem computeFlow_branch_spec_witness :
    "packaging" ∉ (computeFlow digitalStore).map Step.id :=
  (computeFlow_branch_spec digitalStore).2 rfl

/-- C2 counterexample: the store holding quantity "1.5" passes the
completion gate of the required numeric quantity step although "1.5"
does not parse to an integer, refuting the claimed if-and-only-if with
integrality. -/
theorem isStepComplete_qty_fraction_counterexample :
    isStepComplete qtyHalfStore r1QtyStep = true
    ∧ ¬ specParsesToIntegerGE1 (qtyHalfStore "r1_qty") := by
  refine ⟨by decide, ?_⟩
  rintro ⟨q, hq, hden, hge⟩
  have hq2 : jsNumOfVal (qtyHalfStore "r1_qty") = some (3 / 2 : ℚ) := by decide
  rw [hq2] at hq
  obtain rfl : (3 / 2 : ℚ) = q := Option.some.inj hq
  exact absurd hden (by decide)

/-- C2 (amended): the completion gate on the required numeric quantity
step returns true exactly when the stored quantity parses to a number
greater than or equal to 1 (integrality is not required). -/
theorem isStepComplete_qty_iff (a : Store) :
    isStepComplete a r1QtyStep = true ↔
      ∃ q : ℚ, jsNumOfVal (a "r1_qty") = some q ∧ 1 ≤ q := by
  have h : isStepComplete a r1QtyStep = numGE (a "r1_qty") 1 := rfl
  rw [h]
  unfold numGE
  cases hj : jsNumOfVal (a "r1_qty") with
  | none => simp
  | some q => simp [decide_eq_true_iff]

/-- Witness for C2 (amended): the Example 2 store carries quantity "1",
which parses to 1, so the gate passes there. -/
theorem isStepComplete_qty_iff_witness :
    isStepComplete exampleStore2 r1QtyStep = true :=
  (isStepComplete_qty_iff exampleStore2).mpr ⟨1, by decide, le_refl 1⟩

/-- C3 counterexample: on the numeric quantity step the freeform input
"hello" matches no digit token and no number word, yet applying it
rewrites the stored quantity from "0" to "1" (the clamped fallback), so
a parse miss is not a no-op on every step kind. -/
theorem applyFreeform_numeric_records_counterexample :
    qtyZeroStore "r1_qty" = some "0"
    ∧ findSignedIntToken (strToLower "hello").toList = none
    ∧ firstWordHit (strToLower "hello") = none
    ∧ (applyFreeformToStep r1QtyStep "hello" qtyZeroStore) "r1_qty" = some "1" := by
  exact ⟨rfl, by decide, by decide, by decide⟩

/-- C3 (amended): a freeform input that matches no option leaves the
answer store unchanged on choice, design and informational steps, and no
error is surfaced by the function in any case; numeric and amount steps
however always record the clamped fallback value. -/
theorem applyFreeform_miss_no_record (a : Store) (st : Step) (raw : String) :
    (st.kind = "choice" → bestOptionMatch (normalizeText raw) (st.options.getD []) = none →
      applyFreeformToStep st raw a = a)
    ∧ (st.kind = "design" → bestOptionMatch (normalizeText raw) designLabels = none →
      applyFreeformToStep st raw a = a)
    ∧ (st.kind = "info" → applyFreeformToStep st raw a = a) := by
  refine ⟨fun hk hm => ?_, fun hk hm => ?_, fun hk => ?_⟩
  · simp [applyFreeformToStep, hk, hm]
  · simp [applyFreeformToStep, hk, hm]
  · simp [applyFreeformToStep, hk]

/-- Witness for C3 (amended): the unmatched input "zzz" on the card type
step leaves the empty store unchanged. -/
theorem applyFreeform_miss_no_record_witness :
    applyFreeformToStep cardTypeStep "zzz" emptyStore = emptyStore :=
  (applyFreeform_miss_no_record emptyStore cardTypeStep "zzz").1 rfl (by decide)

/-- C5: on the Example 2 store (Physical, quantity 1, amount 50, no
expiry, box packaging, expedited shipping) the computed price is exactly
72: base 50 plus 6 no-expiry premium plus 4 box surcharge plus 12
expedited shipping. -/
theorem computePrice_example2 : computePrice exampleStore2 = 72 := by decide

/-- C6: setting card_type to "Digital" purges the physical-branch
answers and setting it to "Physical" purges the digital-branch answers;
in both cases card_type itself is written and every other key keeps its
value. -/
theorem setAnswer_cardType_purge (a : Store) (k : String) :
    (setAnswer a "card_type" "Digital" k =
      if k = "card_type" then some "Digital"
      else if k = "packaging" ∨ k = "shipping_method" ∨ k = "shipping_address" then none
      else a k)
    ∧ (setAnswer a "card_type" "Physical" k =
      if k = "card_type" then some "Physical"
      else if k = "digital_delivery" ∨ k = "digital_identifier" then none
      else a k) := by
  constructor <;>
  · simp only [setAnswer]
    split_ifs <;> simp_all

set_option maxHeartbeats 1000000 in
theorem physMap_ne_empty (id v : String) (h : CONDITION_C_MAP_PHYSICAL id = some v) :
    v ≠ "" := by
  unfold CONDITION_C_MAP_PHYSICAL at h
  split_ifs at h <;> first
    | exact Option.noConfusion h
    | (injection h with h2; subst h2; decide)

set_option maxHeartbeats 1000000 in
theorem digMap_ne_empty (id v : String) (h : CONDITION_C_MAP_DIGITAL id = some v) :
    v ≠ "" := by
  unfold CONDITION_C_MAP_DIGITAL at h
  split_ifs at h <;> first
    | exact Option.noConfusion h
    | (injection h with h2; subst h2; decide)

/-- C7: under Condition C the resolved modality for a step id is the
entry of the physical table when the stored card_type is "Physical" and
of the digital table otherwise (including an unset card_type), and a
step id absent from the consulted table resolves to "standard". -/
theorem conditionC_modality (a : Store) (cur stepId : String) :
    (a "card_type" = some "Physical" →
      (∀ v, CONDITION_C_MAP_PHYSICAL stepId = some v →
        resolveInputMethodForStep "C" cur a stepId = v)
      ∧ (CONDITION_C_MAP_PHYSICAL stepId = none →
        resolveInputMethodForStep "C" cur a stepId = "standard"))
    ∧ (a "card_type" ≠ some "Physical" →
      (∀ v, CONDITION_C_MAP_DIGITAL stepId = some v →
        resolveInputMethodForStep "C" cur a stepId = v)
      ∧ (CONDITION_C_MAP_DIGITAL stepId = none →
        resolveInputMethodForStep "C" cur a stepId = "standard")) := by
  constructor
  · intro hp
    have hmap : getConditionCMap a = CONDITION_C_MAP_PHYSICAL := by
      simp [getConditionCMap, hp]
    constructor
    · intro v hv
      have hne := physMap_ne_empty stepId v hv
      simp [resolveInputMethodForStep, hmap, hv, jsOrStr, hne]
    · intro hv
      simp [resolveInputMethodForStep, hmap, hv, jsOrStr]
  · intro hp
    have hmap : getConditionCMap a = CONDITION_C_MAP_DIGITAL := by
      simp [getConditionCMap, hp]
    constructor
    · intro v hv
      have hne := digMap_ne_empty stepId v hv
      simp [resolveInputMethodForStep, hmap, hv, jsOrStr, hne]
    · intro hv
      simp [resolveInputMethodForStep, hmap, hv, jsOrStr]

/-- Witness for C7: with card_type Physical the expiry step resolves to
the tabled chat modality. -/
theorem conditionC_modality_witness :
    resolveInputMethodForStep "C" "standard" physicalStore "expiry" = "chat" :=
  ((conditionC_modality physicalStore "standard" "expiry").1 rfl).1 "chat" rfl

/-- C9: when any of the six Likert items carries no explicit selection,
`validateSurvey` is false and the submit handler surfaces the blocking
message, performs no remote write, and leaves the session unchanged. -/
theorem survey_likert_missing_blocks (sess : SessionState) (s : SurveyAnswers) (now : ℤ)
    (h : s.umux_req = none ∨ s.umux_easy = none ∨ s.peffort = none ∨ s.trust = none ∨
      s.control = none ∨ s.satisfaction = none) :
    validateSurvey s = false ∧
      onSubmitSurvey sess s now =
        ⟨sess, false, "Please answer all questions before submitting."⟩ := by
  have hv : validateSurvey s = false := by
    rcases h with h | h | h | h | h | h <;> simp [validateSurvey, likTruthy, h]
  exact ⟨hv, by simp [onSubmitSurvey, hv]⟩

/-- Witness for C9 at the fully unanswered survey on a fresh session. -/
theorem survey_likert_missing_blocks_witness :
    validateSurvey surveyAllNone = false ∧
      onSubmitSurvey sessionStart surveyAllNone 0 =
        ⟨sessionStart, false, "Please answer all questions before submitting."⟩ :=
  survey_likert_missing_blocks sessionStart surveyAllNone 0 (Or.inl rfl)

/-- C10 counterexample: on input "-5" the code clamps the signed token
(yielding the minimum 1) although the first digit run is 5, which clamps
to 5; and on input "ten one" the code returns 1 because the word list is
scanned in map order ("one" precedes "ten"), although the first number
word of the input is "ten", which clamps to 10. -/
theorem parseSpoken_wordorder_counterexample :
    (parseSpokenNumberClosest "-5" 1 10 (some 1) = 1
      ∧ specFirstDigitRun (strToLower "-5").toList = some 5
      ∧ clampInt (some ((5 : ℤ) : ℚ)) 1 10 = 5)
    ∧ (parseSpokenNumberClosest "ten one" 1 10 (some 1) = 1
      ∧ specFirstDigitRun (strToLower "ten one").toList = none
      ∧ specFirstWordInInput (strToLower "ten one").toList = some 10
      ∧ clampInt (some ((10 : ℤ) : ℚ)) 1 10 = 10) := by
  decide

/-- C10 (amended): for ordered bounds the parser always returns an
integer within them, and the returned value is the clamp of the first
signed digit token when one exists, else the clamp of the first
map-order number word found as a substring, else the clamped fallback
(a falsy raw input also goes to the fallback). -/
theorem parseSpoken_clamped_priority (raw : String) (lo hi : ℤ) (fb : Option ℚ)
    (h : lo ≤ hi) :
    (lo ≤ parseSpokenNumberClosest raw lo hi fb ∧ parseSpokenNumberClosest raw lo hi fb ≤ hi)
    ∧ (raw ≠ "" → ∀ n, findSignedIntToken (strToLower raw).toList = some n →
        parseSpokenNumberClosest raw lo hi fb = clampInt (some (n : ℚ)) lo hi)
    ∧ (raw ≠ "" → findSignedIntToken (strToLower raw).toList = none →
        ∀ v, firstWordHit (strToLower raw) = some v →
        parseSpokenNumberClosest raw lo hi fb = clampInt (some (v : ℚ)) lo hi)
    ∧ ((raw = "" ∨ (findSignedIntToken (strToLower raw).toList = none ∧
        firstWordHit (strToLower raw) = none)) →
        parseSpokenNumberClosest raw lo hi fb = clampInt fb lo hi) := by
  refine ⟨?_, fun hr n hn => ?_, fun hr hd v hv => ?_, ?_⟩
  · by_cases hr : raw = ""
    · simp only [parseSpokenNumberClosest, if_pos hr]
      exact clampInt_bounds _ _ _ h
    · simp only [parseSpokenNumberClosest, if_neg hr]
      cases hd : findSignedIntToken (strToLower raw).toList with
      | some n =>
          simp only [hd]
          exact clampInt_bounds _ _ _ h
      | none =>
          cases hw : firstWordHit (strToLower raw) with
          | some v =>
              simp only [hd, hw]
              exact clampInt_bounds _ _ _ h
          | none =>
              simp only [hd, hw]
              exact clampInt_bounds _ _ _ h
  · simp only [parseSpokenNumberClosest, if_neg hr, hn]
  · simp only [parseSpokenNumberClosest, if_neg hr, hd, hv]
  · rintro (hr | ⟨hd, hw⟩)
    · simp only [parseSpokenNumberClosest, if_pos hr]
    · by_cases hr : raw = ""
      · simp only [parseSpokenNumberClosest, if_pos hr]
      · simp only [parseSpokenNumberClosest, if_neg hr, hd, hw]

/-- Witness for C10 (amended): on input "five" with bounds 1 and 10 the
result lies within the bounds. -/
theorem parseSpoken_clamped_priority_witness :
    1 ≤ parseSpokenNumberClosest "five" 1 10 none
      ∧ parseSpokenNumberClosest "five" 1 10 none ≤ 10 :=
  (parseSpoken_clamped_priority "five" 1 10 none (by decide)).1

theorem renderStepState_transitions (st : NavState) (nowR : ℤ) :
    (renderStepState st nowR).transitions = st.transitions := by
  by_cases h : st.currentStep < (computeFlow st.answers).length <;>
    simp [renderStepState, h]

/-- C8: the transition log is append-only, growing by exactly one entry
per successful forward or backward navigation and not at all when
forward navigation is blocked by an incomplete step or backward
navigation is attempted at the first step; under a monotone positive
clock every recorded dwell is the non-negative difference of exit and
entry time, and it is null exactly when no entry time was recorded. -/
theorem transition_log_append (st : NavState) (now nowR : ℤ)
    (hclock : ∀ t, st.stepEnteredAt = some t → 0 < t ∧ t ≤ now) :
    (∀ s, (computeFlow st.answers)[st.currentStep]? = some s →
      (isStepComplete st.answers s = false → nextEvent st now nowR = st)
      ∧ (isStepComplete st.answers s = true → ∃ e,
          (nextEvent st now nowR).transitions = st.transitions ++ [e]
          ∧ (st.stepEnteredAt = none → e.dwellMs = none)
          ∧ ∀ t, st.stepEnteredAt = some t → e.dwellMs = some (now - t) ∧ 0 ≤ now - t))
    ∧ (st.currentStep = 0 → backEvent st now nowR = st)
    ∧ (0 < st.currentStep → ∃ e,
        (backEvent st now nowR).transitions = st.transitions ++ [e]
        ∧ (st.stepEnteredAt = none → e.dwellMs = none)
        ∧ ∀ t, st.stepEnteredAt = some t → e.dwellMs = some (now - t) ∧ 0 ≤ now - t) := by
  refine ⟨fun s hs => ⟨fun hinc => ?_, fun hc => ?_⟩, fun h0 => ?_, fun hpos => ?_⟩
  · simp [nextEvent, hs, hinc]
  · refine ⟨mkTransition "next" (some s.id) st.currentStep
      (((computeFlow st.answers)[st.currentStep + 1]?).map Step.id)
      (((computeFlow st.answers)[st.currentStep + 1]?).map fun _ => st.currentStep + 1)
      (computeFlow st.answers).length st.stepEnteredAt now, ?_, ?_, ?_⟩
    · simp only [nextEvent, hs, hc, if_true]
      rw [renderStepState_transitions]
    · intro hn
      simp [mkTransition, hn]
    · intro t ht
      obtain ⟨htpos, htle⟩ := hclock t ht
      refine ⟨?_, by omega⟩
      simp only [mkTransition, ht]
      rw [if_neg (by omega)]
  · simp [backEvent, h0]
  · have h0 : ¬ st.currentStep = 0 := by omega
    refine ⟨mkTransition "back"
      (((computeFlow st.answers)[st.currentStep]?).map Step.id) st.currentStep
      (((computeFlow st.answers)[st.currentStep - 1]?).map Step.id)
      (((computeFlow st.answers)[st.currentStep - 1]?).map fun _ => st.currentStep - 1)
      (computeFlow st.answers).length st.stepEnteredAt now, ?_, ?_, ?_⟩
    · simp only [backEvent, if_neg h0]
      rw [renderStepState_transitions]
    · intro hn
      simp [mkTransition, hn]
    · intro t ht
      obtain ⟨htpos, htle⟩ := hclock t ht
      refine ⟨?_, by omega⟩
      simp only [mkTransition, ht]
      rw [if_neg (by omega)]

/-- Witness for C8: at the first step with nothing answered, pressing
next is blocked by the incomplete card type step and records nothing. -/
theorem transition_log_append_witness : nextEvent navState0 10 11 = navState0 :=
  ((transition_log_append navState0 10 11
    (by intro t ht; injection ht with h2; omega)).1
    cardTypeStep rfl).1 (by decide)

theorem computePrice_congr (a b : Store)
    (h1 : b "r1_qty" = a "r1_qty") (h2 : b "r1_amt" = a "r1_amt")
    (h3 : b "expiry" = a "expiry") (h4 : b "card_type" = a "card_type")
    (h5 : b "packaging" = a "packaging") (h6 : b "shipping_method" = a "shipping_method") :
    computePrice b = computePrice a := by
  unfold computePrice
  rw [computeTotals_congr a b h1 h2, h3, h4, h5, h6]

/-- C4 counterexample: on the empty store the price is 50 (quantity and
amount defaults), but setting the previously unset r1_amt key to "5"
drops the price to the floor 10, so the price is not monotone under
every mutation that sets a previously unset key. -/
theorem computePrice_amount_decrease_counterexample :
    emptyStore "r1_amt" = none
    ∧ computePrice emptyStore = 50
    ∧ computePrice (setAnswer emptyStore "r1_amt" "5") = 10
    ∧ computePrice (setAnswer emptyStore "r1_amt" "5") < computePrice emptyStore :=
  ⟨rfl, by decide, by decide, by decide⟩

/-- C4 (amended): `computePrice` never falls below the floor 10, and it
is monotone non-decreasing under every mutation that sets a previously
unset key other than r1_amt (whose unset default 50 exceeds the minimum
amount, so first setting it can lower the price). -/
theorem computePrice_floor_monotone :
    (∀ a : Store, 10 ≤ computePrice a)
    ∧ ∀ (a : Store) (k v : String), k ≠ "r1_amt" → a k = none →
        computePrice a ≤ computePrice (setAnswer a k v) := by
  constructor
  · intro a
    unfold computePrice
    exact le_max_right _ _
  · intro a k v hk h0
    set b := setAnswer a k v with hb
    by_cases hc : k = "card_type"
    · subst hc
      have hq : b "r1_qty" = a "r1_qty" :=
        setAnswer_read_unpurged a "card_type" v "r1_qty"
          (by decide) (by decide) (by decide) (by decide) (by decide) (by decide)
      have ha2 : b "r1_amt" = a "r1_amt" :=
        setAnswer_read_unpurged a "card_type" v "r1_amt"
          (by decide) (by decide) (by decide) (by decide) (by decide) (by decide)
      have he : b "expiry" = a "expiry" :=
        setAnswer_read_unpurged a "card_type" v "expiry"
          (by decide) (by decide) (by decide) (by decide) (by decide) (by decide)
      apply computePrice_le_of_parts
      · rw [computeTotals_congr a b hq ha2]
      · rw [he]
      · rw [physicalAdd_not_physical (a "card_type") (a "packaging") (a "shipping_method")
          (by rw [h0]; exact fun hcc => Option.noConfusion hcc)]
        exact physicalAdd_nonneg _ _ _
    · have hread : ∀ q : String, q ≠ k → b q = a q := fun q hq =>
        setAnswer_read_ne a k v q hq hc
      have hself : b k = some v := setAnswer_read_self a k v
      by_cases hq : k = "r1_qty"
      · subst hq
        apply computePrice_le_of_parts
        · have hamt : (computeTotals b).amt = (computeTotals a).amt := by
            rw [computeTotals_amt, computeTotals_amt, hread "r1_amt" (by decide)]
          have hqa : (computeTotals a).qty = 1 := computeTotals_qty_unset a h0
          rw [computeTotals_gift, computeTotals_gift, hamt, hqa, one_mul]
          have h1b := (computeTotals_qty_mem b).1
          have h5a := (computeTotals_amt_mem a).1
          nlinarith
        · rw [hread "expiry" (by decide)]
        · rw [hread "card_type" (by decide), hread "packaging" (by decide),
            hread "shipping_method" (by decide)]
      · by_cases hE2 : k = "expiry"
        · subst hE2
          apply computePrice_le_of_parts
          · rw [computeTotals_congr a b (hread "r1_qty" (by decide)) (hread "r1_amt" (by decide))]
          · rw [h0, hself, expiryAdd_none]
            exact expiryAdd_nonneg _
          · rw [hread "card_type" (by decide), hread "packaging" (by decide),
              hread "shipping_method" (by decide)]
        · by_cases hP2 : k = "packaging"
          · subst hP2
            apply computePrice_le_of_parts
            · rw [computeTotals_congr a b (hread "r1_qty" (by decide))
                (hread "r1_amt" (by decide))]
            · rw [hread "expiry" (by decide)]
            · rw [hread "card_type" (by decide), hread "shipping_method" (by decide),
                hself, h0]
              exact physicalAdd_set_packaging _ _ v
          · by_cases hS2 : k = "shipping_method"
            · subst hS2
              apply computePrice_le_of_parts
              · rw [computeTotals_congr a b (hread "r1_qty" (by decide))
                  (hread "r1_amt" (by decide))]
              · rw [hread "expiry" (by decide)]
              · rw [hread "card_type" (by decide), hread "packaging" (by decide),
                  hself, h0]
                exact physicalAdd_set_shipping _ _ v
            · exact le_of_eq (computePrice_congr a b
                (hread "r1_qty" (fun hh => hq hh.symm))
                (hread "r1_amt" (Ne.symm hk))
                (hread "expiry" (fun hh => hE2 hh.symm))
                (hread "card_type" (fun hh => hc hh.symm))
                (hread "packaging" (fun hh => hP2 hh.symm))
                (hread "shipping_method" (fun hh => hS2 hh.symm))).symm

/-- Witness for C4 (amended): on the empty store the price is at least
the floor, and setting the unset expiry key does not decrease it. -/
theorem computePrice_floor_monotone_witness :
    10 ≤ computePrice emptyStore ∧
      computePrice emptyStore ≤ computePrice (setAnswer emptyStore "expiry" "12-month expiry") :=
  ⟨computePrice_floor_monotone.1 emptyStore,
    computePrice_floor_monotone.2 emptyStore "expiry" "12-month expiry" (by decide) rfl⟩

end CheckoutStudy
